import Mathlib

/-!
Shallow embedding of the go-ssd1306 driver core (package ssd1306).

The driver talks to three collaborators: an SPI writable device, a
data/command select GPIO line (dcPin) and a reset GPIO line (resetPin).
Each operation is modelled as a function from the collaborator behaviour
to the pair of the event trace the operation performs and its returned
error (`none` meaning the Go `nil` error).

Collaborator behaviour is modelled extensionally:
  - `spi data` returns the pair (written byte count, error) of the single
    `spi.Write(data)` call, mirroring the Go signature `(int, error)`;
  - `dcPin v` returns the error of `dcPin.SetValue(v)`;
  - `resetPin i v` returns the error of the i-th (0-based)
    `resetPin.SetValue(v)` call made by `Reset`, so that distinct calls in
    one `Reset` may fail independently, as they can in Go.

Bytes are natural numbers below 256; Go byte shifts truncate modulo 256,
written explicitly as `% 256`.
-/

namespace SSD1306

/-- GPIO levels, from package gpio: `gpio.High` and `gpio.Low`. -/
inductive GpioValue where
| high
| low
deriving DecidableEq, Repr

/-- Observable effects an operation performs on its collaborators. -/
inductive Event where
| setDC (v : GpioValue)
| setReset (v : GpioValue)
| spiWrite (data : List Nat)
| sleep (micros : Nat)
deriving DecidableEq, Repr

/-- Errors returned by driver operations: either an error value surfaced
from a collaborator call (carrying an opaque code standing for the Go
error value), or the locally created `fmt.Errorf("Short write")`. -/
inductive DriverError where
| collaborator (code : Nat)
| shortWrite
deriving DecidableEq, Repr

/-- The `display` struct: the three collaborator handles, modelled by
their extensional behaviour. -/
structure display where
  spi : List Nat → Nat × Option Nat
  dcPin : GpioValue → Option Nat
  resetPin : Nat → GpioValue → Option Nat

/-- `NewDisplay(spi, dcPin, resetPin)` returns `&display{spi, dcPin,
resetPin}`. The first component is the trace of collaborator calls the
constructor makes: the Go body is a single struct literal, so it is
empty. -/
def NewDisplay (spi : List Nat → Nat × Option Nat) (dcPin : GpioValue → Option Nat)
    (resetPin : Nat → GpioValue → Option Nat) : List Event × display :=
  ([], ⟨spi, dcPin, resetPin⟩)

/-- The error computation at the end of `sendCommand`, as a function of
the written count `n`, the command length `len` and the bus error `err`:
`if err != nil { return err }; if n != len(data) { return fmt.Errorf("Short write") }; return nil`. -/
def commandResult (n len : Nat) (err : Option Nat) : Option DriverError :=
  match err with
  | some e => some (DriverError.collaborator e)
  | none => if n ≠ len then some DriverError.shortWrite else none

/-- `sendCommand(data)`: sets the dc pin low (the command level),
discarding the returned error exactly as the Go source does, writes the
whole byte slice in one `spi.Write` call, then checks its result. The
commented-out `dcPin.SetValue(gpio.High)` in the source is absent from
the trace. -/
def sendCommand (disp : display) (data : List Nat) : List Event × Option DriverError :=
  let _dcErr := disp.dcPin GpioValue.low
  let r := disp.spi data
  ([Event.setDC GpioValue.low, Event.spiWrite data], commandResult r.1 data.length r.2)

/-- `Reset()`: drives the reset line high, sleeps 3µs, drives it low,
sleeps 3µs, drives it high, returning the first `SetValue` error and
stopping there. -/
def Reset (disp : display) : List Event × Option DriverError :=
  match disp.resetPin 0 GpioValue.high with
  | some e => ([Event.setReset GpioValue.high], some (DriverError.collaborator e))
  | none =>
    match disp.resetPin 1 GpioValue.low with
    | some e =>
        ([Event.setReset GpioValue.high, Event.sleep 3, Event.setReset GpioValue.low],
         some (DriverError.collaborator e))
    | none =>
        ([Event.setReset GpioValue.high, Event.sleep 3, Event.setReset GpioValue.low,
          Event.sleep 3, Event.setReset GpioValue.high],
         Option.map DriverError.collaborator (disp.resetPin 2 GpioValue.high))

-- Enumerated command-argument constants, as byte values.

def ChargePumpDisabled : Nat := 0x14
def ChargePumpEnabled : Nat := 0x10

def HorizontalAddressing : Nat := 0
def VerticalAddressing : Nat := 1
def PageAddressing : Nat := 2

def Map0ToSeg0 : Nat := 0
def Map127ToSeg0 : Nat := 1

def ScanAscending : Nat := 0xc0
def ScanDescending : Nat := 0xc8

def VccTimesPoint65 : Nat := 0x00
def VccTimesPoint77 : Nat := 0x20
def VccTimesPoint83 : Nat := 0x30

def SequentialComPinConfig : Nat := 0
def AlternativeComPinConfig : Nat := 16

def DisableComLeftRightRemap : Nat := 0
def EnableComLeftRightRemap : Nat := 32

-- The public operations, each a direct transliteration of its Go body.

def Invert (disp : display) : List Event × Option DriverError :=
  sendCommand disp [0xA7]

def Uninvert (disp : display) : List Event × Option DriverError :=
  sendCommand disp [0xA6]

def TurnOff (disp : display) : List Event × Option DriverError :=
  sendCommand disp [0xAE]

def TurnOn (disp : display) : List Event × Option DriverError :=
  sendCommand disp [0xAF]

def SetChargePump (disp : display) (setting : Nat) : List Event × Option DriverError :=
  sendCommand disp [0x8D, setting]

/-- `ConfigureClock(clkDivRatio, oscFreqSetting)`: packs
`(oscFreqSetting << 4) | clkDivRatio` (byte shift, hence `% 256`; no
masking of `clkDivRatio`) and sends it after opcode byte 0x8D. -/
def ConfigureClock (disp : display) (clkDivRatio oscFreqSetting : Nat) :
    List Event × Option DriverError :=
  let packedValue := ((oscFreqSetting <<< 4) % 256) ||| clkDivRatio
  sendCommand disp [0x8D, packedValue]

def ForceEntireDisplayOn (disp : display) : List Event × Option DriverError :=
  sendCommand disp [0xA4]

def StopForcingEntireDisplayOn (disp : display) : List Event × Option DriverError :=
  sendCommand disp [0xA5]

def SetComOutputScanDirection (disp : display) (direction : Nat) :
    List Event × Option DriverError :=
  sendCommand disp [direction]

def ConfigureComPinsHardware (disp : display) (pinConfig leftRightRemap : Nat) :
    List Event × Option DriverError :=
  let packedValue := 2 ||| pinConfig ||| leftRightRemap
  sendCommand disp [0xDA, packedValue]

def SetContrast (disp : display) (contrast : Nat) : List Event × Option DriverError :=
  sendCommand disp [0x81, contrast]

def SetOffset (disp : display) (offset : Nat) : List Event × Option DriverError :=
  sendCommand disp [0xD3, offset]

/-- `SetStartLine(startLine)`: sends the single byte `0x40 | startLine`
(no masking of `startLine`). -/
def SetStartLine (disp : display) (startLine : Nat) : List Event × Option DriverError :=
  let packedValue := 0x40 ||| startLine
  sendCommand disp [packedValue]

def SetMemoryAddressingMode (disp : display) (mode : Nat) : List Event × Option DriverError :=
  sendCommand disp [0x20, mode]

def SetMultiplexRatio (disp : display) (ratio : Nat) : List Event × Option DriverError :=
  sendCommand disp [0xA8, ratio]

/-- `SetPrechargePeriod(phase1Ticks, phase2Ticks)`: packs
`(phase2Ticks << 4) | phase1Ticks` (byte shift, no masking of
`phase1Ticks`) after opcode byte 0xD9. -/
def SetPrechargePeriod (disp : display) (phase1Ticks phase2Ticks : Nat) :
    List Event × Option DriverError :=
  let packedValue := ((phase2Ticks <<< 4) % 256) ||| phase1Ticks
  sendCommand disp [0xD9, packedValue]

def SetSegmentRemap (disp : display) (mode : Nat) : List Event × Option DriverError :=
  let packedValue := 0xA0 ||| mode
  sendCommand disp [packedValue]

def SetVcomhDeselectLevel (disp : display) (level : Nat) : List Event × Option DriverError :=
  sendCommand disp [0xDB, level]

/-- The byte sequences written to the bus during a trace, in order. -/
def spiWrites : List Event → List (List Nat)
  | [] => []
  | Event.spiWrite d :: rest => d :: spiWrites rest
  | _ :: rest => spiWrites rest

-- Concrete collaborator behaviours used to instantiate theorems.

/-- All collaborator calls succeed; the bus accepts every byte. -/
def okDisplay : display :=
  ⟨fun data => (data.length, none), fun _ => none, fun _ _ => none⟩

/-- The dc select line fails (error code 7); everything else succeeds. -/
def dcFailDisplay : display :=
  ⟨fun data => (data.length, none), fun _ => some 7, fun _ _ => none⟩

/-- The bus reports success but accepts zero bytes. -/
def shortWriteDisplay : display :=
  ⟨fun _ => (0, none), fun _ => none, fun _ _ => none⟩

/-- The second reset-line set fails with error code 5. -/
def resetFailSecond : display :=
  ⟨fun data => (data.length, none), fun _ => none,
   fun i _ => if i = 1 then some 5 else none⟩

/-- C1 counterexample: the claim says the second byte of ConfigureClock(d, f)
is (f << 4) OR (d AND 0xF) for every byte d. At d = 0x13, f = 0x8 the code
transmits second byte 0x93, while the claimed formula gives 0x83. -/
theorem configureClock_mask_counterexample :
    spiWrites (ConfigureClock okDisplay 0x13 0x8).1 = [[0x8D, 0x93]] ∧
    ((0x8 <<< 4) % 256) ||| (0x13 &&& 0xF) = 0x83 ∧ (0x93 : Nat) ≠ 0x83 := by
  decide

/-- C1 amended: for all bytes d and f, ConfigureClock(d, f) performs exactly
one bus write, of exactly two bytes: the opcode byte 0x8D followed by
(f << 4) OR d, with no masking of d; in particular ConfigureClock(0x3, 0x8)
transmits 0x83 as its second byte. -/
theorem configureClock_two_bytes (c : display) (d f : Nat) (hd : d < 256) (hf : f < 256) :
    spiWrites (ConfigureClock c d f).1 = [[0x8D, ((f <<< 4) % 256) ||| d]] ∧
    spiWrites (ConfigureClock okDisplay 0x3 0x8).1 = [[0x8D, 0x83]] :=
  ⟨rfl, by decide⟩

theorem configureClock_two_bytes_witness :
    spiWrites (ConfigureClock okDisplay 0x3 0x8).1 = [[0x8D, ((0x8 <<< 4) % 256) ||| 0x3]] :=
  (configureClock_two_bytes okDisplay 0x3 0x8 (by decide) (by decide)).1

/-- C2: ConfigureClock and SetChargePump both start with opcode byte 0x8D,
and for every d, f and setting s with s = (f << 4) OR d, ConfigureClock(d, f)
performs exactly the same trace and returns the same result as
SetChargePump(s). -/
theorem configureClock_eq_setChargePump (c : display) (d f s : Nat)
    (h : s = ((f <<< 4) % 256) ||| d) :
    spiWrites (ConfigureClock c d f).1 = [[0x8D, s]] ∧
    spiWrites (SetChargePump c s).1 = [[0x8D, s]] ∧
    ConfigureClock c d f = SetChargePump c s := by
  subst h
  exact ⟨rfl, rfl, rfl⟩

theorem configureClock_eq_setChargePump_witness :
    ConfigureClock okDisplay 0x3 0x8 = SetChargePump okDisplay 0x83 :=
  (configureClock_eq_setChargePump okDisplay 0x3 0x8 0x83 (by decide)).2.2

/-- C3 counterexample: the dc select line reports an error (code 7) on its
set-level call, yet Invert returns success, because sendCommand discards
the result of dcPin.SetValue. -/
theorem dc_error_ignored_counterexample :
    dcFailDisplay.dcPin GpioValue.low = some 7 ∧ (Invert dcFailDisplay).2 = none := by
  decide

/-- C3 amended: errors from the bus write and from the reset line propagate
immediately: a command operation succeeds exactly when its single bus write
reported no error and a full count, and Reset succeeds exactly when all
three reset-line sets succeeded. The select line set-level result inside
sendCommand is discarded, so a select-line failure alone does not fail the
operation. -/
theorem errors_propagate_amended :
    (∀ (c : display) (data : List Nat),
        (sendCommand c data).2 = none ↔
          ((c.spi data).2 = none ∧ (c.spi data).1 = data.length)) ∧
    (∀ c : display,
        (Reset c).2 = none ↔
          (c.resetPin 0 GpioValue.high = none ∧ c.resetPin 1 GpioValue.low = none ∧
           c.resetPin 2 GpioValue.high = none)) := by
  constructor
  · intro c data
    show commandResult (c.spi data).1 data.length (c.spi data).2 = none ↔ _
    cases h : (c.spi data).2 with
    | some e => simp [commandResult, h]
    | none =>
      by_cases hn : (c.spi data).1 = data.length
      · simp [commandResult, hn]
      · simp [commandResult, hn]
  · intro c
    unfold Reset
    cases h0 : c.resetPin 0 GpioValue.high with
    | some e => simp
    | none =>
      cases h1 : c.resetPin 1 GpioValue.low with
      | some e => simp
      | none =>
        cases h2 : c.resetPin 2 GpioValue.high with
        | some e => simp [h2]
        | none => simp [h2]

theorem errors_propagate_amended_witness :
    (sendCommand okDisplay [0xA7]).2 = none ↔
      ((okDisplay.spi [0xA7]).2 = none ∧ (okDisplay.spi [0xA7]).1 = [0xA7].length) :=
  errors_propagate_amended.1 okDisplay [0xA7]

/-- C4 counterexample: the claim says SetStartLine(n) transmits
0x40 OR (n AND 0x3F). At n = 0x80 the code transmits 0xC0, while the
claimed formula gives 0x40. -/
theorem setStartLine_mask_counterexample :
    spiWrites (SetStartLine okDisplay 0x80).1 = [[0xC0]] ∧
    0x40 ||| (0x80 &&& 0x3F) = 0x40 ∧ (0xC0 : Nat) ≠ 0x40 := by
  decide

/-- C4 amended: for every byte n, SetStartLine(n) performs exactly one bus
write of exactly one byte, 0x40 OR n, with no masking to 6 bits; in
particular SetStartLine(5) transmits 0x45. -/
theorem setStartLine_one_byte (c : display) (n : Nat) (h : n < 256) :
    spiWrites (SetStartLine c n).1 = [[0x40 ||| n]] ∧
    spiWrites (SetStartLine okDisplay 5).1 = [[0x45]] :=
  ⟨rfl, by decide⟩

theorem setStartLine_one_byte_witness :
    spiWrites (SetStartLine okDisplay 5).1 = [[0x40 ||| 5]] :=
  (setStartLine_one_byte okDisplay 5 (by decide)).1

/-- C5 counterexample: the claim says the second byte of
SetPrechargePeriod(p1, p2) is (p2 << 4) OR (p1 AND 0xF). At p1 = 0x12,
p2 = 0x0 the code transmits second byte 0x12, while the claimed formula
gives 0x02. -/
theorem setPrechargePeriod_mask_counterexample :
    spiWrites (SetPrechargePeriod okDisplay 0x12 0x0).1 = [[0xD9, 0x12]] ∧
    ((0x0 <<< 4) % 256) ||| (0x12 &&& 0xF) = 0x02 ∧ (0x12 : Nat) ≠ 0x02 := by
  decide

/-- C5 amended: for all bytes p1 and p2, SetPrechargePeriod(p1, p2) performs
exactly one bus write of the opcode byte 0xD9 followed by
(p2 << 4) OR p1, with no masking of p1; in particular
SetPrechargePeriod(2, 15) has second byte 0xF2. -/
theorem setPrechargePeriod_bytes (c : display) (p1 p2 : Nat) (h1 : p1 < 256) (h2 : p2 < 256) :
    spiWrites (SetPrechargePeriod c p1 p2).1 = [[0xD9, ((p2 <<< 4) % 256) ||| p1]] ∧
    spiWrites (SetPrechargePeriod okDisplay 2 15).1 = [[0xD9, 0xF2]] :=
  ⟨rfl, by decide⟩

theorem setPrechargePeriod_bytes_witness :
    spiWrites (SetPrechargePeriod okDisplay 2 15).1 = [[0xD9, ((15 <<< 4) % 256) ||| 2]] :=
  (setPrechargePeriod_bytes okDisplay 2 15 (by decide) (by decide)).1

/-- C6: Reset drives the reset line high, low, high with a 3µs suspension
between consecutive sets; when all sets succeed the result is the mapped
result of the third; if the second set fails its error is returned, the
third set is never invoked, and the trace stops at the second set; if the
first set fails the trace stops there with its error. -/
theorem reset_sequence (c : display) :
    (c.resetPin 0 GpioValue.high = none → c.resetPin 1 GpioValue.low = none →
      Reset c = ([Event.setReset GpioValue.high, Event.sleep 3, Event.setReset GpioValue.low,
                  Event.sleep 3, Event.setReset GpioValue.high],
                 Option.map DriverError.collaborator (c.resetPin 2 GpioValue.high))) ∧
    (∀ e, c.resetPin 0 GpioValue.high = none → c.resetPin 1 GpioValue.low = some e →
      Reset c = ([Event.setReset GpioValue.high, Event.sleep 3, Event.setReset GpioValue.low],
                 some (DriverError.collaborator e))) ∧
    (∀ e, c.resetPin 0 GpioValue.high = some e →
      Reset c = ([Event.setReset GpioValue.high], some (DriverError.collaborator e))) := by
  refine ⟨?_, ?_, ?_⟩
  · intro h0 h1
    unfold Reset
    rw [h0, h1]
  · intro e h0 h1
    unfold Reset
    rw [h0, h1]
  · intro e h0
    unfold Reset
    rw [h0]

theorem reset_sequence_witness :
    Reset resetFailSecond =
      ([Event.setReset GpioValue.high, Event.sleep 3, Event.setReset GpioValue.low],
       some (DriverError.collaborator 5)) :=
  (reset_sequence resetFailSecond).2.1 5 (by decide) (by decide)

/-- C7: when the bus write reports no error but a count strictly below the
command length, the operation fails with the short-write error and its
trace contains exactly the one bus write; when the count equals the length
and no error was reported, the operation succeeds. -/
theorem short_write_fails (c : display) (data : List Nat)
    (herr : (c.spi data).2 = none) :
    ((c.spi data).1 < data.length →
      (sendCommand c data).2 = some DriverError.shortWrite ∧
      spiWrites (sendCommand c data).1 = [data]) ∧
    ((c.spi data).1 = data.length → (sendCommand c data).2 = none) := by
  constructor
  · intro hlt
    refine ⟨?_, rfl⟩
    show commandResult (c.spi data).1 data.length (c.spi data).2 = _
    rw [herr]
    simp [commandResult, Nat.ne_of_lt hlt]
  · intro heq
    show commandResult (c.spi data).1 data.length (c.spi data).2 = none
    rw [herr, heq]
    simp [commandResult]

theorem short_write_fails_witness :
    (sendCommand shortWriteDisplay [0xA7]).2 = some DriverError.shortWrite ∧
    spiWrites (sendCommand shortWriteDisplay [0xA7]).1 = [[0xA7]] :=
  (short_write_fails shortWriteDisplay [0xA7] rfl).1 (by decide)

/-- C8: every command goes through sendCommand, whose trace sets the dc
select line to low (the command level) before the single bus write and
never sets it to high (the data level) afterward; Reset never touches the
dc line either. -/
theorem dc_command_level (c : display) (data : List Nat) :
    (sendCommand c data).1 = [Event.setDC GpioValue.low, Event.spiWrite data] ∧
    Event.setDC GpioValue.high ∉ (sendCommand c data).1 ∧
    Event.setDC GpioValue.high ∉ (Reset c).1 := by
  refine ⟨rfl, ?_, ?_⟩
  · show Event.setDC GpioValue.high ∉ [Event.setDC GpioValue.low, Event.spiWrite data]
    simp
  · unfold Reset
    cases h0 : c.resetPin 0 GpioValue.high with
    | some e => simp
    | none =>
      cases h1 : c.resetPin 1 GpioValue.low with
      | some e => simp
      | none => simp

theorem dc_command_level_witness :
    (sendCommand okDisplay [0xA7]).1 = [Event.setDC GpioValue.low, Event.spiWrite [0xA7]] :=
  (dc_command_level okDisplay [0xA7]).1

/-- C9: SetSegmentRemap(Map127ToSeg0) performs exactly one bus write of the
single byte 0xA0 OR 1 = 0xA1, and SetSegmentRemap(Map0ToSeg0) of the
single byte 0xA0. -/
theorem setSegmentRemap_bytes (c : display) :
    spiWrites (SetSegmentRemap c Map127ToSeg0).1 = [[0xA1]] ∧
    spiWrites (SetSegmentRemap c Map0ToSeg0).1 = [[0xA0]] :=
  ⟨rfl, rfl⟩

theorem setSegmentRemap_bytes_witness :
    spiWrites (SetSegmentRemap okDisplay Map127ToSeg0).1 = [[0xA1]] :=
  (setSegmentRemap_bytes okDisplay).1

/-- C10: NewDisplay performs no collaborator calls (its trace is empty) and
its only effect is to store the three collaborator handles in the returned
display value. -/
theorem newDisplay_no_io (spi : List Nat → Nat × Option Nat) (dc : GpioValue → Option Nat)
    (rp : Nat → GpioValue → Option Nat) :
    (NewDisplay spi dc rp).1 = [] ∧
    (NewDisplay spi dc rp).2.spi = spi ∧ (NewDisplay spi dc rp).2.dcPin = dc ∧
    (NewDisplay spi dc rp).2.resetPin = rp :=
  ⟨rfl, rfl, rfl, rfl⟩

theorem newDisplay_no_io_witness :
    (NewDisplay okDisplay.spi okDisplay.dcPin okDisplay.resetPin).1 = [] :=
  (newDisplay_no_io okDisplay.spi okDisplay.dcPin okDisplay.resetPin).1

end SSD1306
